import Mathlib

/-!
Shallow embedding of the branch-predictor simulator `sim_bp.c` / `sim_bp.h`.

The C program keeps all predictor state in one mutable aggregate `bp_params`
(configuration fields `K`, `M1`, `M2`, `N`, the predictor name, three tables
of 2-bit saturating counters stored as `unsigned char`, and the global
history register).  We model counters and the history register as `Nat`
(the configuration invariant of the spec keeps every shift and table size
far below the 64-bit width, so machine arithmetic never wraps in the
modelled computations; the one place where unsigned wraparound does matter,
the history-update shift amount `N - 1` at `N = 0`, is modelled separately
by `hist_shift_amount_c` with an explicit `% 2^64`).  Tables are `List Nat`;
the C array read `table[i]` becomes `List.getD table i 0` and the write
becomes `List.set`.  Each `xxx_predict` C function mutates `bp_params` in
place and returns an `int` correctness flag; here it returns the new state
paired with a `Bool`.
-/

/-- Mirror of `struct bp_params` from `sim_bp.h`: configuration sizes, the
predictor name, the three counter tables and the global history register. -/
structure bp_params where
  K : Nat
  M1 : Nat
  M2 : Nat
  N : Nat
  bp_name : String
  bimodal_table : List Nat
  gshare_table : List Nat
  chooser_table : List Nat
  global_history : Nat
deriving Repr, DecidableEq

/-- Fresh parameter block as `main` builds it before `init_predictor` runs:
the size fields and name are set from the command line, the table fields
carry no allocated storage yet and the history register is zero. -/
def mk_params (name : String) (K M1 M2 N : Nat) : bp_params :=
  { K := K, M1 := M1, M2 := M2, N := N, bp_name := name,
    bimodal_table := [], gshare_table := [], chooser_table := [],
    global_history := 0 }

/-- Bimodal table index, line 106 of `sim_bp.c` (also line 167 inside
`hybrid_predict`): `(addr >> 2) & ((1 << M2) - 1)`. -/
def bimodal_index_fn (M2 addr : Nat) : Nat :=
  (addr >>> 2) &&& ((1 <<< M2) - 1)

/-- Gshare table index, lines 128-131 of `sim_bp.c` (also lines 161-164
inside `hybrid_predict`): XOR of the upper N PC bits with the history,
concatenated above the remaining `M1 - N` low PC bits. -/
def gshare_index_fn (M1 N addr history : Nat) : Nat :=
  let pc_upper_n := (addr >>> (M1 - N + 2)) &&& ((1 <<< N) - 1)
  let xor_result := pc_upper_n ^^^ (history &&& ((1 <<< N) - 1))
  let mlessn_bits := (addr >>> 2) &&& ((1 <<< (M1 - N)) - 1)
  (xor_result <<< (M1 - N)) ||| mlessn_bits

/-- Chooser table index, line 170 of `sim_bp.c`:
`(addr >> 2) & ((1 << K) - 1)`. -/
def chooser_index_fn (K addr : Nat) : Nat :=
  (addr >>> 2) &&& ((1 <<< K) - 1)

/-- History-register update, lines 142-147 of `sim_bp.c` (also lines
194-199): shift right by one, OR in `1 << (N - 1)` when the branch was
taken, then mask to N bits. -/
def history_update (N history : Nat) (outcome : Char) : Nat :=
  if outcome = 't' then
    ((1 <<< (N - 1)) ||| (history >>> 1)) &&& ((1 <<< N) - 1)
  else
    (history >>> 1) &&& ((1 <<< N) - 1)

/-- Saturating 2-bit counter update applied at one table slot, the
increment/decrement pattern repeated at lines 111-116, 136-140, 181-191 of
`sim_bp.c`: increment unless the counter is 3, decrement unless it is 0. -/
def sat_update (l : List Nat) (i : Nat) (outcome : Char) : List Nat :=
  let v := l.getD i 0
  if outcome = 't' then
    (if v < 3 then l.set i (v + 1) else l)
  else
    (if 0 < v then l.set i (v - 1) else l)

/-- Mirror of `init_predictor` (`sim_bp.c` lines 13-47): bimodal and gshare
tables are filled with 2 (weakly taken), the hybrid chooser table with 1,
and the history register is cleared for gshare and hybrid. -/
def init_predictor (p : bp_params) : bp_params :=
  if p.bp_name = "bimodal" then
    { p with bimodal_table := List.replicate (1 <<< p.M2) 2 }
  else if p.bp_name = "gshare" then
    { p with gshare_table := List.replicate (1 <<< p.M1) 2,
             global_history := 0 }
  else if p.bp_name = "hybrid" then
    { p with chooser_table := List.replicate (1 <<< p.K) 1,
             gshare_table := List.replicate (1 <<< p.M1) 2,
             bimodal_table := List.replicate (1 <<< p.M2) 2,
             global_history := 0 }
  else p

/-- Mirror of `bimodal_predict` (`sim_bp.c` lines 105-118). -/
def bimodal_predict (p : bp_params) (addr : Nat) (outcome : Char) :
    bp_params × Bool :=
  let index := bimodal_index_fn p.M2 addr
  let prediction := p.bimodal_table.getD index 0
  let pred_taken : Bool := decide (2 ≤ prediction)
  ({ p with bimodal_table := sat_update p.bimodal_table index outcome },
   pred_taken == decide (outcome = 't'))

/-- Mirror of `gshare_predict` (`sim_bp.c` lines 127-149). -/
def gshare_predict (p : bp_params) (addr : Nat) (outcome : Char) :
    bp_params × Bool :=
  let index := gshare_index_fn p.M1 p.N addr p.global_history
  let prediction := p.gshare_table.getD index 0
  let pred_taken : Bool := decide (2 ≤ prediction)
  ({ p with gshare_table := sat_update p.gshare_table index outcome,
            global_history := history_update p.N p.global_history outcome },
   pred_taken == decide (outcome = 't'))

/-- Mirror of `hybrid_predict` (`sim_bp.c` lines 159-210): the chooser
counter picks which sub-predictor supplies the final prediction and which
sub-table is updated; the history register is updated unconditionally; the
chooser moves toward whichever sub-predictor alone was correct. -/
def hybrid_predict (p : bp_params) (addr : Nat) (outcome : Char) :
    bp_params × Bool :=
  let gshare_index := gshare_index_fn p.M1 p.N addr p.global_history
  let gshare_prediction := p.gshare_table.getD gshare_index 0
  let gshare_taken : Bool := decide (2 ≤ gshare_prediction)
  let bimodal_index := bimodal_index_fn p.M2 addr
  let bimodal_prediction := p.bimodal_table.getD bimodal_index 0
  let bimodal_taken : Bool := decide (2 ≤ bimodal_prediction)
  let chooser_index := chooser_index_fn p.K addr
  let chooser := p.chooser_table.getD chooser_index 0
  let final_prediction : Bool :=
    if 2 ≤ chooser then gshare_taken else bimodal_taken
  let gshare_table' :=
    if 2 ≤ chooser then sat_update p.gshare_table gshare_index outcome
    else p.gshare_table
  let bimodal_table' :=
    if 2 ≤ chooser then p.bimodal_table
    else sat_update p.bimodal_table bimodal_index outcome
  let gshare_correct : Bool := gshare_taken == decide (outcome = 't')
  let bimodal_correct : Bool := bimodal_taken == decide (outcome = 't')
  let chooser_table' :=
    if gshare_correct && !bimodal_correct then
      (if chooser < 3 then p.chooser_table.set chooser_index (chooser + 1)
       else p.chooser_table)
    else if bimodal_correct && !gshare_correct then
      (if 0 < chooser then p.chooser_table.set chooser_index (chooser - 1)
       else p.chooser_table)
    else p.chooser_table
  ({ p with gshare_table := gshare_table',
            bimodal_table := bimodal_table',
            chooser_table := chooser_table',
            global_history := history_update p.N p.global_history outcome },
   final_prediction == decide (outcome = 't'))

/-- Dispatch on the predictor name, as the trace loop of `main`
(`sim_bp.c` lines 288-295) does; an unrecognised name leaves the state
alone and reports `correct = 0`. -/
def simulate_event (p : bp_params) (addr : Nat) (outcome : Char) :
    bp_params × Bool :=
  if p.bp_name = "bimodal" then bimodal_predict p addr outcome
  else if p.bp_name = "gshare" then gshare_predict p addr outcome
  else if p.bp_name = "hybrid" then hybrid_predict p addr outcome
  else (p, false)

/-- Mirror of the trace loop of `main` (`sim_bp.c` lines 285-297): process
each (address, outcome) event in order, counting every event as a
prediction and counting a misprediction whenever the predictor reported
the event incorrect.  Returns the final state with the two counts. -/
def run_trace : bp_params → Nat → Nat → List (Nat × Char) →
    bp_params × Nat × Nat
  | p, predictions, mispredictions, [] => (p, predictions, mispredictions)
  | p, predictions, mispredictions, (addr, outcome) :: rest =>
    let r := simulate_event p addr outcome
    run_trace r.1 (predictions + 1)
      (mispredictions + (if r.2 then 0 else 1)) rest

/-- Gshare index as §4.3 of the spec words it, with powers of two written
out: `pc_high_n = (addr >> (M1 - N + 2)) & (2^N - 1)`,
`xor_part = pc_high_n XOR (history & (2^N - 1))`,
`pc_low_bits = (addr >> 2) & (2^(M1-N) - 1)`,
`index = (xor_part << (M1 - N)) | pc_low_bits`. -/
def gshare_index_spec (M1 N addr history : Nat) : Nat :=
  let pc_high_n := (addr >>> (M1 - N + 2)) &&& (2 ^ N - 1)
  let xor_part := pc_high_n ^^^ (history &&& (2 ^ N - 1))
  let pc_low_bits := (addr >>> 2) &&& (2 ^ (M1 - N) - 1)
  (xor_part <<< (M1 - N)) ||| pc_low_bits

/-- History update as §4.3 of the spec words it: shift right by one, set
the new top bit (bit `N - 1`) to 1 exactly when the branch was taken, and
mask to N bits. -/
def history_update_spec (N history : Nat) (taken : Bool) : Nat :=
  (if taken then (history >>> 1) ||| (1 <<< (N - 1)) else history >>> 1)
    % 2 ^ N

/-- Shift amount of the `1 << (params->N - 1)` history-update expression at
lines 144 and 196 of `sim_bp.c`, computed the way C computes it: `N` has
type `unsigned long int` (64 bits), so `params->N - 1` wraps modulo
`2^64`. -/
def hist_shift_amount_c (N : Nat) : Nat :=
  (N + 2 ^ 64 - 1) % 2 ^ 64

/-- Saturation invariant: every counter of every table is at most 3
(counters are `Nat`, so at least 0 for free). -/
def countersOK (p : bp_params) : Prop :=
  (∀ x ∈ p.bimodal_table, x ≤ 3) ∧ (∀ x ∈ p.gshare_table, x ≤ 3) ∧
    (∀ x ∈ p.chooser_table, x ≤ 3)

/-- Saturating increment on one counter value: no-op at the ceiling 3. -/
def sat_incr (v : Nat) : Nat := if v < 3 then v + 1 else v

/-- Saturating decrement on one counter value: no-op at the floor 0. -/
def sat_decr (v : Nat) : Nat := if 0 < v then v - 1 else v

/-- Vote of the gshare table for an address in the current state:
`gshare_taken` at line 166 of `sim_bp.c`. -/
def gshare_vote (p : bp_params) (addr : Nat) : Bool :=
  decide (2 ≤ p.gshare_table.getD (gshare_index_fn p.M1 p.N addr p.global_history) 0)

/-- Vote of the bimodal table for an address in the current state:
`bimodal_taken` at line 169 of `sim_bp.c`. -/
def bimodal_vote (p : bp_params) (addr : Nat) : Bool :=
  decide (2 ≤ p.bimodal_table.getD (bimodal_index_fn p.M2 addr) 0)

/-- End-to-end bimodal demonstration run of §8 of the spec: `M2 = 2`,
freshly initialised, on the trace (0x0 t), (0x4 n), (0x0 t), (0x8 t). -/
def bimodal_demo_run : bp_params × Nat × Nat :=
  run_trace (init_predictor (mk_params "bimodal" 0 0 2 0)) 0 0
    [(0, 't'), (4, 'n'), (0, 't'), (8, 't')]

/-- History register of the gshare predictor with `M1 = 2`, `N = 2` after
running the first `k` events of the all-taken-then-all-not-taken outcome
trace t, t, n, n (addresses 0). -/
def gshare_demo_history (k : Nat) : Nat :=
  (run_trace (init_predictor (mk_params "gshare" 0 2 0 2)) 0 0
    (List.take k [(0, 't'), (0, 't'), (0, 'n'), (0, 'n')])).1.global_history

/-! ## Helper lemmas -/

theorem getD_le_of_forall_le {l : List Nat} {b : Nat}
    (h : ∀ x ∈ l, x ≤ b) (i : Nat) : l.getD i 0 ≤ b := by
  rw [List.getD_eq_getElem?_getD]
  cases e : l[i]? with
  | none => exact Nat.zero_le b
  | some a => exact h a (List.getElem?_mem e)

theorem forall_le_set {l : List Nat} {b v : Nat} (i : Nat)
    (h : ∀ x ∈ l, x ≤ b) (hv : v ≤ b) : ∀ x ∈ l.set i v, x ≤ b := by
  intro x hx
  rcases List.mem_or_eq_of_mem_set hx with hm | he
  · exact h x hm
  · exact he ▸ hv

theorem sat_update_le {l : List Nat} (h : ∀ x ∈ l, x ≤ 3) (i : Nat)
    (o : Char) : ∀ x ∈ sat_update l i o, x ≤ 3 := by
  simp only [sat_update]
  split
  · split
    · exact forall_le_set i h (by omega)
    · exact h
  · split
    · exact forall_le_set i h
        (Nat.le_trans (Nat.sub_le _ 1) (getD_le_of_forall_le h i))
    · exact h

theorem set_getD_self (l : List Nat) (i : Nat) : l.set i (l.getD i 0) = l := by
  induction l generalizing i with
  | nil => rfl
  | cons a t ih =>
    cases i with
    | zero => rfl
    | succ j => simpa using ih j

theorem sat_update_eq_set (l : List Nat) (i : Nat) (o : Char) :
    sat_update l i o =
      l.set i (if o = 't' then sat_incr (l.getD i 0)
               else sat_decr (l.getD i 0)) := by
  simp only [sat_update, sat_incr, sat_decr]
  by_cases ht : o = 't'
  · simp only [if_pos ht]
    by_cases hv : l.getD i 0 < 3
    · rw [if_pos hv, if_pos hv]
    · rw [if_neg hv, if_neg hv, set_getD_self]
  · simp only [if_neg ht]
    by_cases hv : 0 < l.getD i 0
    · rw [if_pos hv, if_pos hv]
    · rw [if_neg hv, if_neg hv, set_getD_self]

theorem bimodal_predict_fst (p : bp_params) (a : Nat) (o : Char) :
    (bimodal_predict p a o).1 =
      { p with bimodal_table :=
          sat_update p.bimodal_table (bimodal_index_fn p.M2 a) o } := rfl

theorem gshare_predict_fst (p : bp_params) (a : Nat) (o : Char) :
    (gshare_predict p a o).1 =
      { p with
        gshare_table :=
          (sat_update p.gshare_table
            (gshare_index_fn p.M1 p.N a p.global_history) o),
        global_history := history_update p.N p.global_history o } := rfl

theorem hybrid_predict_gshare (p : bp_params) (a : Nat) (o : Char) :
    (hybrid_predict p a o).1.gshare_table =
      if 2 ≤ p.chooser_table.getD (chooser_index_fn p.K a) 0 then
        sat_update p.gshare_table
          (gshare_index_fn p.M1 p.N a p.global_history) o
      else p.gshare_table := rfl

theorem hybrid_predict_bimodal (p : bp_params) (a : Nat) (o : Char) :
    (hybrid_predict p a o).1.bimodal_table =
      if 2 ≤ p.chooser_table.getD (chooser_index_fn p.K a) 0 then
        p.bimodal_table
      else sat_update p.bimodal_table (bimodal_index_fn p.M2 a) o := rfl

theorem hybrid_predict_chooser (p : bp_params) (a : Nat) (o : Char) :
    (hybrid_predict p a o).1.chooser_table =
      if (gshare_vote p a == decide (o = 't')) &&
          !(bimodal_vote p a == decide (o = 't')) then
        (if p.chooser_table.getD (chooser_index_fn p.K a) 0 < 3 then
          p.chooser_table.set (chooser_index_fn p.K a)
            (p.chooser_table.getD (chooser_index_fn p.K a) 0 + 1)
         else p.chooser_table)
      else if (bimodal_vote p a == decide (o = 't')) &&
          !(gshare_vote p a == decide (o = 't')) then
        (if 0 < p.chooser_table.getD (chooser_index_fn p.K a) 0 then
          p.chooser_table.set (chooser_index_fn p.K a)
            (p.chooser_table.getD (chooser_index_fn p.K a) 0 - 1)
         else p.chooser_table)
      else p.chooser_table := rfl

theorem hybrid_predict_history (p : bp_params) (a : Nat) (o : Char) :
    (hybrid_predict p a o).1.global_history =
      history_update p.N p.global_history o := rfl

theorem countersOK_bimodal {p : bp_params} {a : Nat} {o : Char}
    (h : countersOK p) : countersOK (bimodal_predict p a o).1 := by
  obtain ⟨h1, h2, h3⟩ := h
  exact ⟨sat_update_le h1 _ _, h2, h3⟩

theorem countersOK_gshare {p : bp_params} {a : Nat} {o : Char}
    (h : countersOK p) : countersOK (gshare_predict p a o).1 := by
  obtain ⟨h1, h2, h3⟩ := h
  exact ⟨h1, sat_update_le h2 _ _, h3⟩

theorem countersOK_hybrid {p : bp_params} {a : Nat} {o : Char}
    (h : countersOK p) : countersOK (hybrid_predict p a o).1 := by
  obtain ⟨h1, h2, h3⟩ := h
  refine ⟨?_, ?_, ?_⟩
  · rw [hybrid_predict_bimodal]
    split
    · exact h1
    · exact sat_update_le h1 _ _
  · rw [hybrid_predict_gshare]
    split
    · exact sat_update_le h2 _ _
    · exact h2
  · rw [hybrid_predict_chooser]
    split
    · split
      · exact forall_le_set _ h3 (by omega)
      · exact h3
    · split
      · split
        · exact forall_le_set _ h3
            (Nat.le_trans (Nat.sub_le _ 1) (getD_le_of_forall_le h3 _))
        · exact h3
      · exact h3

theorem countersOK_simulate {p : bp_params} {a : Nat} {o : Char}
    (h : countersOK p) : countersOK (simulate_event p a o).1 := by
  unfold simulate_event
  split
  · exact countersOK_bimodal h
  · split
    · exact countersOK_gshare h
    · split
      · exact countersOK_hybrid h
      · exact h

theorem countersOK_run {p : bp_params} (h : countersOK p)
    (evts : List (Nat × Char)) (preds mis : Nat) :
    countersOK (run_trace p preds mis evts).1 := by
  induction evts generalizing p preds mis with
  | nil => exact h
  | cons e rest ih =>
    obtain ⟨a, o⟩ := e
    exact ih (countersOK_simulate h) _ _

theorem countersOK_init (name : String) (K M1 M2 N : Nat) :
    countersOK (init_predictor (mk_params name K M1 M2 N)) := by
  have hrep2 : ∀ n, ∀ x ∈ List.replicate n 2, x ≤ 3 := by
    intro n x hx
    rw [List.eq_of_mem_replicate hx]
    decide
  have hrep1 : ∀ n, ∀ x ∈ List.replicate n 1, x ≤ 3 := by
    intro n x hx
    rw [List.eq_of_mem_replicate hx]
    decide
  have hnil : ∀ x ∈ ([] : List Nat), x ≤ 3 := by simp
  unfold init_predictor mk_params
  split
  · exact ⟨hrep2 _, hnil, hnil⟩
  · split
    · exact ⟨hnil, hrep2 _, hnil⟩
    · split
      · exact ⟨hrep2 _, hrep2 _, hrep1 _⟩
      · exact ⟨hnil, hnil, hnil⟩

/-! ## Claim theorems -/

/-- C1: for every predictor variant (every name string, hence in
particular bimodal, gshare and hybrid) and every finite sequence of branch
events, starting from the initialised tables (bimodal and gshare counters
at 2, chooser counters at 1), every counter of every table stays in the
range [0,3] after processing each event — instantiating the event list at
every prefix of a trace gives the bound after each event. -/
theorem counters_stay_in_range (name : String) (K M1 M2 N : Nat)
    (evts : List (Nat × Char)) (preds mis : Nat) :
    countersOK
      (run_trace (init_predictor (mk_params name K M1 M2 N))
        preds mis evts).1 :=
  countersOK_run (countersOK_init name K M1 M2 N) evts preds mis

theorem history_update_eq_spec (N h : Nat) (o : Char) :
    history_update N h o = history_update_spec N h (o == 't') := by
  by_cases ht : o = 't'
  · simp [history_update, history_update_spec, ht, Nat.one_shiftLeft,
      Nat.and_pow_two_sub_one_eq_mod, Nat.lor_comm]
  · simp [history_update, history_update_spec, ht, Nat.one_shiftLeft,
      Nat.and_pow_two_sub_one_eq_mod]

/-- C2: for `M1 ≥ N`, the gshare table index computed by `gshare_predict`
and `hybrid_predict` (both call `gshare_index_fn`, the embedding of the
identical index code at lines 128-131 and 161-164 of `sim_bp.c`) equals
the spec formula
`(((addr >> (M1-N+2)) & (2^N - 1)) XOR (history & (2^N - 1))) << (M1-N)
 | ((addr >> 2) & (2^(M1-N) - 1))`, and it always lies in `[0, 2^M1)`, so
the gshare table access is in bounds. -/
theorem gshare_index_formula_and_bound (M1 N addr history : Nat)
    (h : N ≤ M1) :
    gshare_index_fn M1 N addr history = gshare_index_spec M1 N addr history ∧
      gshare_index_fn M1 N addr history < 2 ^ M1 := by
  have hmask : ∀ k : Nat, (2 : Nat) ^ k - 1 < 2 ^ k :=
    fun k => Nat.sub_lt (Nat.two_pow_pos k) Nat.one_pos
  constructor
  · simp only [gshare_index_fn, gshare_index_spec, Nat.one_shiftLeft]
  · simp only [gshare_index_fn, Nat.one_shiftLeft]
    refine Nat.or_lt_two_pow ?_ ?_
    · rw [Nat.shiftLeft_eq]
      calc ((addr >>> (M1 - N + 2)) &&& (2 ^ N - 1) ^^^
              (history &&& (2 ^ N - 1))) * 2 ^ (M1 - N)
          < 2 ^ N * 2 ^ (M1 - N) := by
            refine mul_lt_mul_of_pos_right ?_ (Nat.two_pow_pos _)
            exact Nat.xor_lt_two_pow (Nat.and_lt_two_pow _ (hmask N))
              (Nat.and_lt_two_pow _ (hmask N))
        _ = 2 ^ (N + (M1 - N)) := (pow_add 2 N (M1 - N)).symm
        _ = 2 ^ M1 := by rw [Nat.add_sub_cancel' h]
    · exact Nat.lt_of_lt_of_le (Nat.and_lt_two_pow _ (hmask (M1 - N)))
        (Nat.pow_le_pow_right (by decide) (Nat.sub_le M1 N))

/-- Witness for C2 at the concrete configuration `M1 = 2`, `N = 1`,
address 12, history 3. -/
theorem gshare_index_formula_and_bound_witness :
    (1 : Nat) ≤ 2 ∧
      (gshare_index_fn 2 1 12 3 = gshare_index_spec 2 1 12 3 ∧
        gshare_index_fn 2 1 12 3 < 2 ^ 2) :=
  ⟨by decide, gshare_index_formula_and_bound 2 1 12 3 (by decide)⟩

/-- C3: on every hybrid event exactly one of the two sub-tables changes:
when the chooser counter read at the chooser index is at least 2, the
gshare counter at the gshare index is updated per the outcome and the
bimodal table is left untouched; otherwise the bimodal counter is updated
and the gshare table is left untouched. -/
theorem hybrid_updates_exactly_one_subtable (p : bp_params) (addr : Nat)
    (outcome : Char) :
    if 2 ≤ p.chooser_table.getD (chooser_index_fn p.K addr) 0 then
      (hybrid_predict p addr outcome).1.bimodal_table = p.bimodal_table ∧
        (hybrid_predict p addr outcome).1.gshare_table =
          sat_update p.gshare_table
            (gshare_index_fn p.M1 p.N addr p.global_history) outcome
    else
      (hybrid_predict p addr outcome).1.gshare_table = p.gshare_table ∧
        (hybrid_predict p addr outcome).1.bimodal_table =
          sat_update p.bimodal_table (bimodal_index_fn p.M2 addr) outcome := by
  split
  · rename_i h
    refine ⟨?_, ?_⟩
    · rw [hybrid_predict_bimodal, if_pos h]
    · rw [hybrid_predict_gshare, if_pos h]
  · rename_i h
    refine ⟨?_, ?_⟩
    · rw [hybrid_predict_gshare, if_neg h]
    · rw [hybrid_predict_bimodal, if_neg h]

/-- C4: for gshare and hybrid the history register is updated
unconditionally on every event to the old history shifted right by one
with bit `N - 1` set when the outcome is taken and cleared otherwise,
masked to N bits (`history_update_spec`, worded from the spec); and with
`N = 2`, starting from history 0, the outcome sequence t, t, n, n drives
the history through 0, 2, 3, 1, 0 (the bit patterns
00, 10, 11, 01, 00). -/
theorem history_register_evolution (p : bp_params) (addr : Nat)
    (outcome : Char) (hN : 1 ≤ p.N) :
    ((gshare_predict p addr outcome).1.global_history =
        history_update_spec p.N p.global_history (outcome == 't') ∧
      (hybrid_predict p addr outcome).1.global_history =
        history_update_spec p.N p.global_history (outcome == 't')) ∧
      (gshare_demo_history 0 = 0 ∧ gshare_demo_history 1 = 2 ∧
        gshare_demo_history 2 = 3 ∧ gshare_demo_history 3 = 1 ∧
        gshare_demo_history 4 = 0) := by
  have _ := hN
  refine ⟨⟨?_, ?_⟩, by decide⟩
  · exact history_update_eq_spec p.N p.global_history outcome
  · exact history_update_eq_spec p.N p.global_history outcome

/-- Witness for C4 at the gshare configuration `M1 = 2`, `N = 2`, address
0, outcome taken. -/
theorem history_register_evolution_witness :
    1 ≤ (mk_params "gshare" 0 2 0 2).N ∧
      (((gshare_predict (mk_params "gshare" 0 2 0 2) 0 't').1.global_history =
          history_update_spec (mk_params "gshare" 0 2 0 2).N
            (mk_params "gshare" 0 2 0 2).global_history ('t' == 't') ∧
        (hybrid_predict (mk_params "gshare" 0 2 0 2) 0 't').1.global_history =
          history_update_spec (mk_params "gshare" 0 2 0 2).N
            (mk_params "gshare" 0 2 0 2).global_history ('t' == 't')) ∧
        (gshare_demo_history 0 = 0 ∧ gshare_demo_history 1 = 2 ∧
          gshare_demo_history 2 = 3 ∧ gshare_demo_history 3 = 1 ∧
          gshare_demo_history 4 = 0)) :=
  ⟨by decide, history_register_evolution (mk_params "gshare" 0 2 0 2) 0 't'
    (by decide)⟩

/-- C5: on every hybrid event, judged by the gshare and bimodal votes read
before any table or history update, the chooser counter at the chooser
index is saturating-incremented exactly when gshare alone predicted the
outcome, saturating-decremented exactly when bimodal alone predicted it,
and the chooser table is unchanged whenever both sub-predictors were
correct or both were incorrect. -/
theorem hybrid_chooser_moves_iff_votes_disagree (p : bp_params)
    (addr : Nat) (outcome : Char) :
    (hybrid_predict p addr outcome).1.chooser_table =
      if (gshare_vote p addr == decide (outcome = 't')) &&
          !(bimodal_vote p addr == decide (outcome = 't')) then
        p.chooser_table.set (chooser_index_fn p.K addr)
          (sat_incr (p.chooser_table.getD (chooser_index_fn p.K addr) 0))
      else if (bimodal_vote p addr == decide (outcome = 't')) &&
          !(gshare_vote p addr == decide (outcome = 't')) then
        p.chooser_table.set (chooser_index_fn p.K addr)
          (sat_decr (p.chooser_table.getD (chooser_index_fn p.K addr) 0))
      else p.chooser_table := by
  rw [hybrid_predict_chooser]
  split
  · simp only [sat_incr]
    by_cases hv : p.chooser_table.getD (chooser_index_fn p.K addr) 0 < 3
    · rw [if_pos hv, if_pos hv]
    · rw [if_neg hv, if_neg hv, set_getD_self]
  · split
    · simp only [sat_decr]
      by_cases hv : 0 < p.chooser_table.getD (chooser_index_fn p.K addr) 0
      · rw [if_pos hv, if_pos hv]
      · rw [if_neg hv, if_neg hv, set_getD_self]
    · rfl

/-- C6: on every bimodal event the counter read is at index
`(addr >> 2) & (2^M2 - 1)`, the table is updated at that single index by a
saturating increment on a taken outcome and a saturating decrement
otherwise, the history register is untouched, and the function reports the
event correct exactly when predicting taken (counter at least 2) agreed
with the outcome being taken. -/
theorem bimodal_event_characterisation (p : bp_params) (addr : Nat)
    (outcome : Char) :
    bimodal_index_fn p.M2 addr = (addr >>> 2) &&& (2 ^ p.M2 - 1) ∧
      (bimodal_predict p addr outcome).1.bimodal_table =
        p.bimodal_table.set (bimodal_index_fn p.M2 addr)
          (if outcome = 't' then
            sat_incr (p.bimodal_table.getD (bimodal_index_fn p.M2 addr) 0)
           else
            sat_decr (p.bimodal_table.getD (bimodal_index_fn p.M2 addr) 0)) ∧
      (bimodal_predict p addr outcome).1.global_history =
        p.global_history ∧
      ((bimodal_predict p addr outcome).2 = true ↔
        (2 ≤ p.bimodal_table.getD (bimodal_index_fn p.M2 addr) 0 ↔
          outcome = 't')) := by
  refine ⟨?_, ?_, rfl, ?_⟩
  · simp [bimodal_index_fn, Nat.one_shiftLeft]
  · show sat_update p.bimodal_table (bimodal_index_fn p.M2 addr) outcome = _
    rw [sat_update_eq_set]
  · show (decide (2 ≤ p.bimodal_table.getD (bimodal_index_fn p.M2 addr) 0) ==
        decide (outcome = 't')) = true ↔ _
    simp [beq_iff_eq, decide_eq_decide]

/-- C7 (code bug): when `N = 0` the gshare index does reduce to the low M1
PC bits, but the history update on a taken outcome is not free of
undefined shift behaviour: the C code computes the shift amount
`params->N - 1` in 64-bit unsigned arithmetic (`hist_shift_amount_c`),
which at `N = 0` wraps to `2^64 - 1`, far beyond the legal shift range
(less than 32) for the `int` operand in `1 << (params->N - 1)`.  Under
idealised masking semantics the subsequent AND with `(1 << N) - 1 = 0`
would still leave the history register at 0 for both outcomes. -/
theorem gshare_n0_taken_shift_out_of_range :
    (∀ M1 addr h, gshare_index_fn M1 0 addr h =
      (addr >>> 2) &&& ((1 <<< M1) - 1)) ∧
      hist_shift_amount_c 0 = 2 ^ 64 - 1 ∧ 32 ≤ hist_shift_amount_c 0 ∧
      history_update 0 0 't' = 0 ∧ history_update 0 0 'n' = 0 := by
  refine ⟨?_, by decide, by decide, by decide, by decide⟩
  intro M1 addr h
  simp [gshare_index_fn]

/-- C8: running the bimodal predictor with `M2 = 2` from freshly
initialised state on the trace (0x0 t), (0x4 n), (0x0 t), (0x8 t) ends
with counter[0] = 3 and counter[1] = 1, makes 4 predictions with exactly
1 misprediction, and the misprediction rate is 25.00% (the last conjunct
states mispredictions / predictions = 2500 / 10000). -/
theorem bimodal_demo_results :
    bimodal_demo_run.1.bimodal_table.getD 0 0 = 3 ∧
      bimodal_demo_run.1.bimodal_table.getD 1 0 = 1 ∧
      bimodal_demo_run.2.1 = 4 ∧ bimodal_demo_run.2.2 = 1 ∧
      bimodal_demo_run.2.2 * 10000 = 2500 * bimodal_demo_run.2.1 := by
  decide

/-- C9 (counterexample): with `M2 = 2` the bimodal index of address 0x8 is
`(8 >> 2) & 3 = 2`, not 0 as the claim states. -/
theorem bimodal_index_of_8_is_not_0 :
    bimodal_index_fn 2 8 = 2 ∧ ¬ bimodal_index_fn 2 8 = 0 := by decide

/-- C9 (amended): with `M2 = 2` the bimodal index formula maps address 0x0
to index 0, address 0x4 to index 1 and address 0x8 to index 2. -/
theorem bimodal_index_small_addresses :
    bimodal_index_fn 2 0 = 0 ∧ bimodal_index_fn 2 4 = 1 ∧
      bimodal_index_fn 2 8 = 2 := by decide

/-- C10: every outcome character other than `t` is treated exactly like
`n` by all three predict functions: the whole result (new state and
correctness flag) coincides with the not-taken result, a 0 bit is shifted
into the history register, and the bimodal event is reported correct
exactly when the counter voted not-taken. -/
theorem non_t_outcome_behaves_as_not_taken (c : Char) (hc : c ≠ 't')
    (p : bp_params) (addr : Nat) :
    bimodal_predict p addr c = bimodal_predict p addr 'n' ∧
      gshare_predict p addr c = gshare_predict p addr 'n' ∧
      hybrid_predict p addr c = hybrid_predict p addr 'n' ∧
      (gshare_predict p addr c).1.global_history =
        (p.global_history >>> 1) &&& ((1 <<< p.N) - 1) ∧
      ((bimodal_predict p addr c).2 = true ↔
        ¬ 2 ≤ p.bimodal_table.getD (bimodal_index_fn p.M2 addr) 0) := by
  have hn : ('n' : Char) ≠ 't' := by decide
  refine ⟨?_, ?_, ?_, ?_, ?_⟩
  · simp [bimodal_predict, sat_update, hc, hn]
  · simp [gshare_predict, sat_update, history_update, hc, hn]
  · simp [hybrid_predict, sat_update, history_update, hc, hn]
  · simp [gshare_predict, history_update, hc]
  · simp [bimodal_predict, hc]

/-- Witness for C10 at the outcome character `x` on the freshly declared
bimodal parameter block with `M2 = 2`, address 4. -/
theorem non_t_outcome_behaves_as_not_taken_witness :
    ('x' : Char) ≠ 't' ∧
      (bimodal_predict (mk_params "bimodal" 0 0 2 0) 4 'x' =
          bimodal_predict (mk_params "bimodal" 0 0 2 0) 4 'n' ∧
        gshare_predict (mk_params "bimodal" 0 0 2 0) 4 'x' =
          gshare_predict (mk_params "bimodal" 0 0 2 0) 4 'n' ∧
        hybrid_predict (mk_params "bimodal" 0 0 2 0) 4 'x' =
          hybrid_predict (mk_params "bimodal" 0 0 2 0) 4 'n' ∧
        (gshare_predict (mk_params "bimodal" 0 0 2 0) 4 'x').1.global_history =
          ((mk_params "bimodal" 0 0 2 0).global_history >>> 1) &&&
            ((1 <<< (mk_params "bimodal" 0 0 2 0).N) - 1) ∧
        ((bimodal_predict (mk_params "bimodal" 0 0 2 0) 4 'x').2 = true ↔
          ¬ 2 ≤ (mk_params "bimodal" 0 0 2 0).bimodal_table.getD
              (bimodal_index_fn (mk_params "bimodal" 0 0 2 0).M2 4) 0)) :=
  ⟨by decide, non_t_outcome_behaves_as_not_taken 'x' (by decide)
    (mk_params "bimodal" 0 0 2 0) 4⟩
